import Mathlib

/-!
Shallow embedding of the resource reconciliation layer of the
terraform-provider-influxdb repository: the Create/Read/Update/Delete
handlers of the five resource kinds (Bucket, Task, Check,
NotificationEndpoint, NotificationRule), translated from the Go source.

Modelling conventions:
* A Terraform nullable value (`types.String`, `types.Int64`, `types.Bool`)
  is an `Option`; `ValueString`/`ValueInt64`/`ValueBool` on a null value
  return the zero value, embedded as `getD`.
* Remote calls are recorded in an explicit trace (one inductive of call
  shapes per resource); the remote responses the code consumes are passed
  in as oracle arguments (`Except`, HTTP status + body + decoded payload),
  so every handler is a pure, executable function.
* Diagnostics keep their error/warning severity and an identifying
  summary; the Go format verbs interpolating dynamic data are elided.
* Timestamps cross the SDK boundary already formatted, so they are held
  as strings; threshold values are carried verbatim and never computed
  with, so their Go float64 type is modelled by `Int`.
-/

namespace Influx

/-- `types.String.ValueString`: the empty string when null. -/
def valueString (o : Option String) : String := o.getD ""

/-- `types.Int64.ValueInt64`: zero when null. -/
def valueInt (o : Option Int) : Int := o.getD 0

/-- `types.Bool.ValueBool`: false when null. -/
def valueBool (o : Option Bool) : Bool := o.getD false

/-- One entry of a `diag.Diagnostics` list. -/
structure Diag where
  isError : Bool
  summary : String
deriving DecidableEq, Repr

/-- `Diagnostics.AddError`. -/
def Diag.err (s : String) : Diag := ⟨true, s⟩

/-- `Diagnostics.AddWarning`. -/
def Diag.warn (s : String) : Diag := ⟨false, s⟩

/-- `Diagnostics.HasError`. -/
def hasErrorDiag (l : List Diag) : Bool := l.any (·.isError)

/-- Outcome of one CRUD handler: the remote calls it issued in order, the
diagnostics it appended, the state document it wrote (if it reached
`resp.State.Set`), and whether it signalled remove-from-state. -/
structure StepResult (σ : Type) (κ : Type) where
  calls : List κ := []
  diagnostics : List Diag := []
  state : Option σ := none
  removed : Bool := false
deriving DecidableEq, Repr

/-- An organization record as returned by the SDK lookup APIs. -/
structure Organization where
  id : String
  name : String
deriving DecidableEq, Repr

/-- The authenticated user returned by `UsersAPI().Me`. -/
structure InfluxUser where
  id : String
deriving DecidableEq, Repr

/-- A raw HTTP response: status code and body. -/
structure HTTPResponse where
  statusCode : Nat
  body : String
deriving DecidableEq, Repr

/-- `listStartsWith l p` is true when `p` is a prefix of `l`. -/
def listStartsWith : List Char → List Char → Bool
  | _, [] => true
  | [], _ :: _ => false
  | a :: l, b :: p => a == b && listStartsWith l p

/-- `listContainsSub l p` is true when `p` occurs contiguously in `l`
(the embedding of `strings.Contains`). -/
def listContainsSub : List Char → List Char → Bool
  | [], p => listStartsWith [] p
  | a :: l, p => listStartsWith (a :: l) p || listContainsSub l p

/-- `strings.Contains s pat`. -/
def containsSub (s pat : String) : Bool := listContainsSub s.toList pat.toList

end Influx

/-! ## Task resource (`internal/resources/task_resource.go`) -/

namespace Influx

/-- `domain.Task` of the SDK, restricted to the fields the reconciler
touches. Pointer-valued fields are `Option`s; `CreatedAt`/`UpdatedAt`
carry the already-formatted timestamp string. -/
structure DomainTask where
  id : String := ""
  name : String := ""
  orgID : String := ""
  flux : String := ""
  description : Option String := none
  status : Option String := none
  every : Option String := none
  cron : Option String := none
  offset : Option String := none
  createdAt : Option String := none
  updatedAt : Option String := none
deriving DecidableEq, Repr

/-- `TaskResourceModel`: the Terraform state/plan document of a task. -/
structure TaskResourceModel where
  id : Option String := none
  name : Option String := none
  org : Option String := none
  description : Option String := none
  flux : Option String := none
  status : Option String := none
  every : Option String := none
  cron : Option String := none
  offset : Option String := none
  createdAt : Option String := none
  updatedAt : Option String := none
deriving DecidableEq, Repr

/-- The remote-call shapes a task handler can issue, in SDK terms. -/
inductive TaskCall
  | findOrgByName (name : String)
  | createTask (task : DomainTask)
  | getTaskByID (id : String)
  | findOrgByID (orgID : String)
  | updateTask (task : DomainTask)
  | deleteTask (id : String)
deriving DecidableEq, Repr

namespace TaskResource

/-- `hasEvery` of `validateScheduling`: non-null and non-empty. -/
def hasEverySet (d : TaskResourceModel) : Bool :=
  d.every.isSome && valueString d.every != ""

/-- `hasCron` of `validateScheduling`: non-null and non-empty. -/
def hasCronSet (d : TaskResourceModel) : Bool :=
  d.cron.isSome && valueString d.cron != ""

/-- `validateScheduling`: `none` when validation passes, otherwise the
validation error added to the diagnostics. -/
def validateScheduling (d : TaskResourceModel) : Option String :=
  if !hasEverySet d && !hasCronSet d then
    some "Either every or cron must be specified for task scheduling"
  else if hasEverySet d && hasCronSet d then
    some "Cannot specify both every and cron scheduling options"
  else
    none

/-- `setComputedFields`: copy the response task into the state document.
Mirrors the Go field-by-field: `description` null when the response has
none, `status` defaulted to active, scheduling fields and both
timestamps taken from the response (null when absent). -/
def setComputedFields (data : TaskResourceModel) (task : DomainTask) :
    TaskResourceModel :=
  { data with
    id := some task.id
    name := some task.name
    description := task.description
    status := some (task.status.getD "active")
    every := task.every
    cron := task.cron
    offset := task.offset
    createdAt := task.createdAt
    updatedAt := task.updatedAt }

/-- The `domain.Task` assembled by `Create` before calling `CreateTask`. -/
def buildCreateTask (data : TaskResourceModel) (orgID : String) : DomainTask :=
  { name := valueString data.name
    orgID := orgID
    flux := valueString data.flux
    description := data.description
    status := some (data.status.getD "active")
    every := data.every
    cron := data.cron
    offset := data.offset }

/-- `TaskResource.Create`. `provOrg` is the provider default org;
`orgResult` and `createResult` are the outcomes of the two SDK calls. -/
def create (provOrg : String) (orgResult : Except String Organization)
    (createResult : Except String DomainTask) (plan : TaskResourceModel) :
    StepResult TaskResourceModel TaskCall :=
  match validateScheduling plan with
  | some msg => { diagnostics := [Diag.err ("Validation Error: " ++ msg)] }
  | none =>
    let orgName := match plan.org with
      | some s => s
      | none => provOrg
    match orgResult with
    | .error e =>
      { calls := [.findOrgByName orgName]
        diagnostics := [Diag.err ("Client Error: unable to find organization: " ++ e)] }
    | .ok org =>
      let task := buildCreateTask plan org.id
      match createResult with
      | .error e =>
        { calls := [.findOrgByName orgName, .createTask task]
          diagnostics := [Diag.err ("Client Error: unable to create task: " ++ e)] }
      | .ok created =>
        let data := setComputedFields { plan with org := some orgName } created
        { calls := [.findOrgByName orgName, .createTask task]
          state := some data }

/-- `TaskResource.Read`. `getResult` is the outcome of `GetTaskByID`,
`orgResult` of `FindOrganizationByID`. The remote flux is stored
verbatim (`data.Flux = types.StringValue(task.Flux)`). -/
def read (getResult : Except String DomainTask)
    (orgResult : Except String Organization) (state : TaskResourceModel) :
    StepResult TaskResourceModel TaskCall :=
  match getResult with
  | .error e =>
    { calls := [.getTaskByID (valueString state.id)]
      diagnostics := [Diag.err ("Client Error: unable to read task: " ++ e)] }
  | .ok task =>
    let data := { state with flux := some task.flux }
    match orgResult with
    | .error e =>
      { calls := [.getTaskByID (valueString state.id), .findOrgByID task.orgID]
        diagnostics := [Diag.err ("Client Error: unable to find organization by id: " ++ e)] }
    | .ok org =>
      let data := setComputedFields { data with org := some org.name } task
      { calls := [.getTaskByID (valueString state.id), .findOrgByID task.orgID]
        state := some data }

/-- The `domain.Task` assembled by `Update` before calling `UpdateTask`.
Unlike create, `status` has no active default here. -/
def buildUpdateTask (data : TaskResourceModel) : DomainTask :=
  { id := valueString data.id
    name := valueString data.name
    flux := valueString data.flux
    description := data.description
    status := data.status
    every := data.every
    cron := data.cron
    offset := data.offset }

/-- `TaskResource.Update`. -/
def update (updateResult : Except String DomainTask)
    (plan : TaskResourceModel) : StepResult TaskResourceModel TaskCall :=
  match validateScheduling plan with
  | some msg => { diagnostics := [Diag.err ("Validation Error: " ++ msg)] }
  | none =>
    let task := buildUpdateTask plan
    match updateResult with
    | .error e =>
      { calls := [.updateTask task]
        diagnostics := [Diag.err ("Client Error: unable to update task: " ++ e)] }
    | .ok updated =>
      let data := setComputedFields { plan with flux := some updated.flux } updated
      { calls := [.updateTask task], state := some data }

/-- `TaskResource.Delete`. `deleteErr` is the error value returned by the
SDK `DeleteTask` call; the handler inspects only its presence, with no
not-found carve-out. (At the SDK boundary a 404 delete response is
surfaced as a non-nil error carrying the status, so `deleteErr` is
`some _` for a not-found outcome.) -/
def delete (deleteErr : Option String) (state : TaskResourceModel) :
    StepResult TaskResourceModel TaskCall :=
  match deleteErr with
  | some e =>
    { calls := [.deleteTask (valueString state.id)]
      diagnostics := [Diag.err ("Client Error: unable to delete task: " ++ e)] }
  | none => { calls := [.deleteTask (valueString state.id)] }

end TaskResource

/-- Modelled from the spec: the repository contains no flux-normalization
code (no occurrence of a preamble-stripping routine anywhere under the
source tree), so the stripping the spec attributes to the Task reconciler
is reconstructed here from its words: a leading `option task = { ... }`
brace-balanced block is located by scanning for the matching nested-brace
close, only the body after the matched closing brace is kept, trimmed;
text not starting with such a preamble is returned unchanged.
`skipBalanced cs depth` consumes `cs` until the brace nesting depth
returns to zero, returning the remainder. -/
def skipBalanced : List Char → Nat → Option (List Char)
  | [], _ => none
  | c :: rest, depth =>
    if c == '\x7b' then skipBalanced rest (depth + 1)
    else if c == '\x7d' then
      if depth ≤ 1 then some rest else skipBalanced rest (depth - 1)
    else skipBalanced rest depth

/-- Modelled from the spec (see `skipBalanced`): drop characters up to and
including the first opening brace. -/
def dropToOpenBrace : List Char → Option (List Char)
  | [] => none
  | c :: rest => if c == '\x7b' then some rest else dropToOpenBrace rest

/-- Whitespace test used by the trimming of the spec-modelled stripping. -/
def isWS (c : Char) : Bool :=
  c == ' ' || c == '\t' || c == '\n' || c == '\r'

/-- Drop leading whitespace characters. -/
def dropLeadingWS : List Char → List Char
  | [] => []
  | c :: rest => if isWS c then dropLeadingWS rest else c :: rest

/-- Trim whitespace from both ends. -/
def trimChars (cs : List Char) : List Char :=
  (dropLeadingWS (dropLeadingWS cs).reverse).reverse

/-- Modelled from the spec (see `skipBalanced`): strip a leading
`option task = { ... }` preamble and trim the remaining body. -/
def stripTaskPreamble (s : String) : String :=
  let t := dropLeadingWS s.toList
  if listStartsWith t "option task".toList then
    match dropToOpenBrace t with
    | some afterOpen =>
      match skipBalanced afterOpen 1 with
      | some body => String.mk (trimChars body)
      | none => s
    | none => s
  else s

/-! ## Bucket resource (the retention-aware version, `src/unnamed/part_002`) -/

/-- One `domain.RetentionRule` of the SDK. -/
structure RetentionRule where
  everySeconds : Int
deriving DecidableEq, Repr

/-- `domain.Bucket` of the SDK, restricted to the fields the reconciler
touches. The create response always carries an id (the Go code
dereferences `createdBucket.Id` unconditionally). -/
structure DomainBucket where
  id : String := ""
  name : String := ""
  orgID : Option String := none
  description : Option String := none
  retentionRules : List RetentionRule := []
deriving DecidableEq, Repr

/-- `BucketResourceModel`: the Terraform state/plan document of a bucket. -/
structure BucketResourceModel where
  id : Option String := none
  name : Option String := none
  org : Option String := none
  description : Option String := none
  retentionSeconds : Option Int := none
deriving DecidableEq, Repr

/-- The remote-call shapes a bucket handler can issue, in SDK terms. -/
inductive BucketCall
  | findOrgByName (name : String)
  | createBucket (bucket : DomainBucket)
  | findBucketByID (id : String)
  | findOrgByID (orgID : String)
  | updateBucket (bucket : DomainBucket)
  | deleteBucket (id : String)
deriving DecidableEq, Repr

namespace BucketResource

/-- `setRetentionSecondsFromRules`: the first returned retention rule, or
0 (infinite) when the response carries none. -/
def setRetentionSecondsFromRules (data : BucketResourceModel)
    (rules : List RetentionRule) : BucketResourceModel :=
  { data with
    retentionSeconds := some (match rules with
      | r :: _ => r.everySeconds
      | [] => 0) }

/-- `prepareRetentionRules`: always a single rule, with `EverySeconds`
defaulted to 0 when the desired retention is null. -/
def prepareRetentionRules (data : BucketResourceModel) : List RetentionRule :=
  [⟨valueInt data.retentionSeconds⟩]

/-- `BucketResource.Create` (retention-aware version). -/
def create (provOrg : String) (orgResult : Except String Organization)
    (createResult : Except String DomainBucket) (plan : BucketResourceModel) :
    StepResult BucketResourceModel BucketCall :=
  let orgName := match plan.org with
    | some s => s
    | none => provOrg
  match orgResult with
  | .error e =>
    { calls := [.findOrgByName orgName]
      diagnostics := [Diag.err ("Client Error: unable to find organization: " ++ e)] }
  | .ok org =>
    let bucket : DomainBucket :=
      { name := valueString plan.name
        orgID := some org.id
        retentionRules := prepareRetentionRules plan
        description := plan.description }
    match createResult with
    | .error e =>
      { calls := [.findOrgByName orgName, .createBucket bucket]
        diagnostics := [Diag.err ("Client Error: unable to create bucket: " ++ e)] }
    | .ok created =>
      let data := { plan with
        id := some created.id
        name := some created.name
        org := some orgName
        description := match created.description with
          | some v => some v
          | none => plan.description }
      let data := setRetentionSecondsFromRules data created.retentionRules
      { calls := [.findOrgByName orgName, .createBucket bucket]
        state := some data }

/-- `BucketResource.Read`. Any error from `FindBucketByID` — the SDK
surfaces a 404 as a non-nil error — is reported as an error diagnostic;
there is no remove-from-state branch. -/
def read (findResult : Except String DomainBucket)
    (orgResult : Except String Organization) (state : BucketResourceModel) :
    StepResult BucketResourceModel BucketCall :=
  match findResult with
  | .error e =>
    { calls := [.findBucketByID (valueString state.id)]
      diagnostics := [Diag.err ("Client Error: unable to read bucket: " ++ e)] }
  | .ok bucket =>
    let data := { state with name := some bucket.name }
    match orgResult with
    | .error e =>
      { calls := [.findBucketByID (valueString state.id),
                  .findOrgByID (valueString bucket.orgID)]
        diagnostics := [Diag.err ("Client Error: unable to find organization by id: " ++ e)] }
    | .ok org =>
      let data := { data with
        org := some org.name
        description := bucket.description }
      let data := setRetentionSecondsFromRules data bucket.retentionRules
      { calls := [.findBucketByID (valueString state.id),
                  .findOrgByID (valueString bucket.orgID)]
        state := some data }

/-- `BucketResource.Delete`. `deleteErr` is the error value returned by
the SDK `DeleteBucket` call; the handler inspects only its presence,
with no not-found carve-out. -/
def delete (deleteErr : Option String) (state : BucketResourceModel) :
    StepResult BucketResourceModel BucketCall :=
  match deleteErr with
  | some e =>
    { calls := [.deleteBucket (valueString state.id)]
      diagnostics := [Diag.err ("Client Error: unable to delete bucket: " ++ e)] }
  | none => { calls := [.deleteBucket (valueString state.id)] }

end BucketResource

/-! ## Check resource (`internal/resources/check_resource.go`) -/

/-- `ThresholdModel`: one declared threshold block. -/
structure ThresholdModel where
  type : Option String := none
  value : Option Int := none
  level : Option String := none
  allValues : Option Bool := none
deriving DecidableEq, Repr

/-- `CheckResourceModel`: the Terraform state/plan document of a check. -/
structure CheckResourceModel where
  id : Option String := none
  name : Option String := none
  org : Option String := none
  description : Option String := none
  query : Option String := none
  status : Option String := none
  every : Option String := none
  offset : Option String := none
  statusMessageTemplate : Option String := none
  type : Option String := none
  thresholds : List ThresholdModel := []
  createdAt : Option String := none
  updatedAt : Option String := none
deriving DecidableEq, Repr

/-- `CheckQuery`: the query wrapper `{text}` of the API payload. -/
structure CheckQuery where
  text : String
deriving DecidableEq, Repr

/-- `CheckThreshold`: one threshold of the API payload. -/
structure CheckThreshold where
  allValues : Option Bool := none
  level : String := ""
  value : Int := 0
  type : String := ""
deriving DecidableEq, Repr

/-- `CheckAPI`: the JSON shape used for check API calls. -/
structure CheckAPI where
  id : Option String := none
  name : String := ""
  orgID : String := ""
  description : Option String := none
  query : CheckQuery := ⟨""⟩
  status : String := ""
  every : String := ""
  offset : String := ""
  statusMessageTemplate : Option String := none
  thresholds : List CheckThreshold := []
  type : String := ""
  createdAt : Option String := none
  updatedAt : Option String := none
deriving DecidableEq, Repr

/-- The remote-call shapes a check handler can issue. -/
inductive CheckCall
  | findOrgByName (name : String)
  | post (payload : CheckAPI)
  | get (id : String)
  | findOrgByID (orgID : String)
  | patch (id : String) (payload : CheckAPI)
  | deleteCall (id : String)
deriving DecidableEq, Repr

namespace CheckResource

/-- `makeHTTPRequest`: JSON body transport already applied; fails with an
API error carrying the status and raw body outside 200–299. -/
def makeHTTPRequest (resp : HTTPResponse) : Except String String :=
  if resp.statusCode < 200 || resp.statusCode ≥ 300 then
    .error ("API request failed with status " ++ toString resp.statusCode
      ++ ": " ++ resp.body)
  else
    .ok resp.body

/-- The threshold conversion of `Create`/`Update`: `all_values` read with
`ValueBool` (false when null) and sent as a set pointer. -/
def convertThreshold (t : ThresholdModel) : CheckThreshold :=
  { type := valueString t.type
    value := valueInt t.value
    level := valueString t.level
    allValues := some (valueBool t.allValues) }

/-- The payload assembled by `Create`: status defaulted to active and
offset to 0s exactly when absent, thresholds converted in order, then
the optional fields overridden when present. -/
def buildCreatePayload (data : CheckResourceModel) (orgID : String) :
    CheckAPI :=
  let payload : CheckAPI :=
    { name := valueString data.name
      orgID := orgID
      query := ⟨valueString data.query⟩
      status := "active"
      every := valueString data.every
      offset := "0s"
      type := valueString data.type
      thresholds := data.thresholds.map convertThreshold }
  let payload := match data.description with
    | some d => { payload with description := some d }
    | none => payload
  let payload := match data.status with
    | some s => { payload with status := s }
    | none => payload
  let payload := match data.offset with
    | some o => { payload with offset := o }
    | none => payload
  let payload := match data.type with
    | some t => { payload with type := t }
    | none => payload
  match data.statusMessageTemplate with
  | some t => { payload with statusMessageTemplate := some t }
  | none => payload

/-- `setComputedFields`: copy the response check into the state document;
the threshold list is rebuilt in response order with `all_values`
defaulted to false when the response leaves it absent. -/
def setComputedFields (data : CheckResourceModel) (check : CheckAPI) :
    CheckResourceModel :=
  { data with
    id := some (valueString check.id)
    name := some check.name
    description := check.description
    query := some check.query.text
    status := some check.status
    every := some check.every
    offset := some check.offset
    type := some check.type
    statusMessageTemplate := check.statusMessageTemplate
    thresholds := check.thresholds.map (fun t =>
      { type := some t.type
        value := some t.value
        level := some t.level
        allValues := some (t.allValues.getD false) })
    createdAt := check.createdAt
    updatedAt := check.updatedAt }

/-- `CheckResource.Create`. `httpResp` is the response of the POST;
`decode` the result of unmarshalling its body. -/
def create (provOrg : String) (orgResult : Except String Organization)
    (httpResp : HTTPResponse) (decode : Except String CheckAPI)
    (plan : CheckResourceModel) : StepResult CheckResourceModel CheckCall :=
  let orgName := match plan.org with
    | some s => s
    | none => provOrg
  match orgResult with
  | .error e =>
    { calls := [.findOrgByName orgName]
      diagnostics := [Diag.err ("Create - Client Error: unable to find organization: " ++ e)] }
  | .ok org =>
    let payload := buildCreatePayload plan org.id
    match makeHTTPRequest httpResp with
    | .error e =>
      { calls := [.findOrgByName orgName, .post payload]
        diagnostics := [Diag.err ("Create - HTTP Error: unable to create check: " ++ e)] }
    | .ok _ =>
      match decode with
      | .error e =>
        { calls := [.findOrgByName orgName, .post payload]
          diagnostics := [Diag.err ("Create - Parse Error: " ++ e)] }
      | .ok created =>
        let data := setComputedFields { plan with org := some orgName } created
        { calls := [.findOrgByName orgName, .post payload]
          state := some data }

/-- `CheckResource.Read`. A 404 flows through `makeHTTPRequest` as an
error and is reported as a hard error diagnostic; there is no
remove-from-state branch. -/
def read (httpResp : HTTPResponse) (decode : Except String CheckAPI)
    (orgResult : Except String Organization) (state : CheckResourceModel) :
    StepResult CheckResourceModel CheckCall :=
  match makeHTTPRequest httpResp with
  | .error e =>
    { calls := [.get (valueString state.id)]
      diagnostics := [Diag.err ("Read - HTTP Error: unable to read check: " ++ e)] }
  | .ok _ =>
    match decode with
    | .error e =>
      { calls := [.get (valueString state.id)]
        diagnostics := [Diag.err ("Read - Parse Error: " ++ e)] }
    | .ok check =>
      match orgResult with
      | .error e =>
        { calls := [.get (valueString state.id), .findOrgByID check.orgID]
          diagnostics := [Diag.err ("Read - Client Error: unable to find organization by id: " ++ e)] }
      | .ok org =>
        let data := setComputedFields { state with org := some org.name } check
        { calls := [.get (valueString state.id), .findOrgByID check.orgID]
          state := some data }

/-- `CheckResource.Delete`. An error whose text contains `404` is treated
as an already-deleted check (success); any other error is reported. -/
def delete (httpResp : HTTPResponse) (state : CheckResourceModel) :
    StepResult CheckResourceModel CheckCall :=
  match makeHTTPRequest httpResp with
  | .error e =>
    if containsSub e "404" then
      { calls := [.deleteCall (valueString state.id)] }
    else
      { calls := [.deleteCall (valueString state.id)]
        diagnostics := [Diag.err ("Delete - HTTP Error: unable to delete check: " ++ e)] }
  | .ok _ => { calls := [.deleteCall (valueString state.id)] }

end CheckResource

/-! ## NotificationEndpoint resource (second half of
`internal/resources/task_resource.go`) -/

/-- `NotificationEndpointResourceModel`: the Terraform state/plan
document of a notification endpoint. Headers (`types.Map`) are an
association list, null when never set. -/
structure NotificationEndpointResourceModel where
  id : Option String := none
  name : Option String := none
  org : Option String := none
  description : Option String := none
  status : Option String := none
  type : Option String := none
  url : Option String := none
  token : Option String := none
  username : Option String := none
  password : Option String := none
  method : Option String := none
  authMethod : Option String := none
  headers : Option (List (String × String)) := none
deriving DecidableEq, Repr

/-- `NotificationEndpointRequest`: the exact JSON body sent on create and
update — these seven fields and nothing else. -/
structure NotificationEndpointRequest where
  name : String
  type : String
  url : String
  status : String
  method : String
  authMethod : String
  orgID : String
deriving DecidableEq, Repr

/-- `NotificationEndpointResponse`: the decoded JSON of the remote
endpoint record. -/
structure NotificationEndpointResponse where
  id : String := ""
  name : String := ""
  description : Option String := none
  status : String := ""
  type : String := ""
  url : String := ""
  token : Option String := none
  username : Option String := none
  password : Option String := none
  method : String := ""
  authMethod : String := ""
  headers : List (String × String) := []
  orgID : String := ""
deriving DecidableEq, Repr

/-- The remote-call shapes a notification-endpoint handler can issue. -/
inductive NECall
  | findOrgByName (name : String)
  | post (req : NotificationEndpointRequest)
  | get (id : String)
  | patch (id : String) (req : NotificationEndpointRequest)
  | deleteCall (id : String)
deriving DecidableEq, Repr

namespace NotificationEndpointResource

/-- The request assembled by `Create`: status, method and auth method are
hard-wired to active/POST/none; the desired token, username, password,
headers and any caller-supplied status/method/auth-method never enter
the request. -/
def buildCreateRequest (data : NotificationEndpointResourceModel)
    (orgID : String) : NotificationEndpointRequest :=
  { name := valueString data.name
    type := valueString data.type
    url := valueString data.url
    status := "active"
    method := "POST"
    authMethod := "none"
    orgID := orgID }

/-- `NotificationEndpointResource.Create`. `httpStatus` and `decode` are
the response status of the POST and the result of unmarshalling its
body. -/
def create (provOrg : String) (orgResult : Except String Organization)
    (httpStatus : Nat) (body : String)
    (decode : Except String NotificationEndpointResponse)
    (plan : NotificationEndpointResourceModel) :
    StepResult NotificationEndpointResourceModel NECall :=
  let orgName := match plan.org with
    | some s => s
    | none => provOrg
  match orgResult with
  | .error e =>
    { calls := [.findOrgByName orgName]
      diagnostics := [Diag.err ("[CREATE STAGE] Client Error: unable to find organization: " ++ e)] }
  | .ok org =>
    let req := buildCreateRequest plan org.id
    if httpStatus != 201 then
      { calls := [.findOrgByName orgName, .post req]
        diagnostics := [Diag.err ("[CREATE STAGE] API Error: status "
          ++ toString httpStatus ++ ": " ++ body)] }
    else
      match decode with
      | .error e =>
        { calls := [.findOrgByName orgName, .post req]
          diagnostics := [Diag.err ("[CREATE STAGE] Deserialization Error: " ++ e)] }
      | .ok endpoint =>
        let data := { plan with
          id := some endpoint.id
          org := some orgName
          status := some endpoint.status
          method := some endpoint.method
          authMethod := some endpoint.authMethod }
        { calls := [.findOrgByName orgName, .post req]
          state := some data }

/-- `NotificationEndpointResource.Read`. A 404 adds a warning and signals
remove-from-state; any other non-200 status is a hard error. -/
def read (httpStatus : Nat) (body : String)
    (decode : Except String NotificationEndpointResponse)
    (state : NotificationEndpointResourceModel) :
    StepResult NotificationEndpointResourceModel NECall :=
  if httpStatus == 404 then
    { calls := [.get (valueString state.id)]
      diagnostics := [Diag.warn "[READ STAGE] Resource Not Found: removing from state"]
      removed := true }
  else if httpStatus != 200 then
    { calls := [.get (valueString state.id)]
      diagnostics := [Diag.err ("[READ STAGE] API Error: status "
        ++ toString httpStatus ++ ": " ++ body)] }
  else
    match decode with
    | .error e =>
      { calls := [.get (valueString state.id)]
        diagnostics := [Diag.err ("[READ STAGE] Deserialization Error: " ++ e)] }
    | .ok endpoint =>
      let data := { state with
        name := some endpoint.name
        description := match endpoint.description with
          | some d => some d
          | none => state.description
        status := some endpoint.status
        type := some endpoint.type
        url := some endpoint.url
        method := some endpoint.method
        authMethod := if endpoint.authMethod != "" then some endpoint.authMethod
          else state.authMethod
        headers := if endpoint.headers.length > 0 then some endpoint.headers
          else state.headers }
      { calls := [.get (valueString state.id)]
        state := some data }

/-- `NotificationEndpointResource.Delete`: 204 and 404 both count as
success; anything else is a hard error carrying the response body. -/
def delete (httpStatus : Nat) (body : String)
    (state : NotificationEndpointResourceModel) :
    StepResult NotificationEndpointResourceModel NECall :=
  if httpStatus != 204 && httpStatus != 404 then
    { calls := [.deleteCall (valueString state.id)]
      diagnostics := [Diag.err ("[DELETE STAGE] API Error: status "
        ++ toString httpStatus ++ ": " ++ body)] }
  else
    { calls := [.deleteCall (valueString state.id)] }

end NotificationEndpointResource

/-! ## NotificationRule resource (second half of `src/unnamed/part_001`) -/

/-- `StatusRuleModel`: one declared status-transition rule block. -/
structure StatusRuleModel where
  currentLevel : Option String := none
  previousLevel : Option String := none
deriving DecidableEq, Repr

/-- `TagRuleModel`: one declared tag-match rule block. -/
structure TagRuleModel where
  key : Option String := none
  value : Option String := none
  operator : Option String := none
deriving DecidableEq, Repr

/-- `NotificationRuleResourceModel`: the Terraform state/plan document of
a notification rule. -/
structure NotificationRuleResourceModel where
  id : Option String := none
  name : Option String := none
  org : Option String := none
  description : Option String := none
  status : Option String := none
  type : Option String := none
  endpointID : Option String := none
  every : Option String := none
  offset : Option String := none
  messageTemplate : Option String := none
  statusRules : List StatusRuleModel := []
  tagRules : List TagRuleModel := []
deriving DecidableEq, Repr

/-- `StatusRule` of the JSON wire shape; `previousLevel` carries
`omitempty`, so the empty string stands for an omitted field. -/
structure StatusRule where
  currentLevel : String := ""
  previousLevel : String := ""
deriving DecidableEq, Repr

/-- `TagRule` of the JSON wire shape. -/
structure TagRule where
  key : String := ""
  value : String := ""
  operator : String := ""
deriving DecidableEq, Repr

/-- `NotificationRuleRequest`: the JSON body of a create POST. List
fields carry `omitempty`, so the empty list stands for an omitted
field. -/
structure NotificationRuleRequest where
  name : String := ""
  description : Option String := none
  status : String := ""
  type : String := ""
  endpointID : String := ""
  ownerID : String := ""
  every : String := ""
  offset : Option String := none
  messageTemplate : Option String := none
  statusRules : List StatusRule := []
  tagRules : List TagRule := []
  orgID : String := ""
deriving DecidableEq, Repr

/-- `NotificationRuleUpdateRequest`: the JSON body of an update PUT — the
create shape plus the rule id. -/
structure NotificationRuleUpdateRequest where
  id : String := ""
  name : String := ""
  description : Option String := none
  status : String := ""
  type : String := ""
  endpointID : String := ""
  ownerID : String := ""
  every : String := ""
  offset : Option String := none
  messageTemplate : Option String := none
  statusRules : List StatusRule := []
  tagRules : List TagRule := []
  orgID : String := ""
deriving DecidableEq, Repr

/-- `NotificationRuleResponse`: the decoded JSON of the remote rule. -/
structure NotificationRuleResponse where
  id : String := ""
  name : String := ""
  description : Option String := none
  status : String := ""
  type : String := ""
  endpointID : String := ""
  every : Option String := none
  offset : Option String := none
  messageTemplate : Option String := none
  statusRules : List StatusRule := []
  tagRules : List TagRule := []
  orgID : String := ""
deriving DecidableEq, Repr

/-- The remote-call shapes a notification-rule handler can issue. -/
inductive NRCall
  | findOrgByName (name : String)
  | userMe
  | post (req : NotificationRuleRequest)
  | get (id : String)
  | put (id : String) (req : NotificationRuleUpdateRequest)
  | deleteCall (id : String)
deriving DecidableEq, Repr

namespace NotificationRuleResource

/-- The request assembled by `Create`: name, status, kind, endpoint id,
owner id, interval and org id from the model, the status-rule list set
to the empty list, offset always set from `ValueString` (the
empty-string-backed pointer when the desired offset is null) — and no
assignment at all to description, message template, tag rules, or the
declared status rules. -/
def buildCreateRequest (data : NotificationRuleResourceModel)
    (ownerID orgID : String) : NotificationRuleRequest :=
  let ruleReq : NotificationRuleRequest :=
    { name := valueString data.name
      status := valueString data.status
      type := valueString data.type
      endpointID := valueString data.endpointID
      ownerID := ownerID
      every := valueString data.every
      orgID := orgID
      statusRules := [] }
  { ruleReq with offset := some (valueString data.offset) }

/-- `NotificationRuleResource.Create`. -/
def create (provOrg : String) (orgResult : Except String Organization)
    (userResult : Except String InfluxUser) (httpStatus : Nat)
    (body : String) (decode : Except String NotificationRuleResponse)
    (plan : NotificationRuleResourceModel) :
    StepResult NotificationRuleResourceModel NRCall :=
  let orgName := match plan.org with
    | some s => s
    | none => provOrg
  match orgResult with
  | .error e =>
    { calls := [.findOrgByName orgName]
      diagnostics := [Diag.err ("Client Error: unable to find organization: " ++ e)] }
  | .ok org =>
    match userResult with
    | .error e =>
      { calls := [.findOrgByName orgName, .userMe]
        diagnostics := [Diag.err ("[CREATE STAGE] User Error: " ++ e)] }
    | .ok user =>
      let req := buildCreateRequest plan user.id org.id
      if httpStatus != 201 then
        { calls := [.findOrgByName orgName, .userMe, .post req]
          diagnostics := [Diag.err ("[CREATE STAGE] API Error: status "
            ++ toString httpStatus ++ ": " ++ body)] }
      else
        match decode with
        | .error e =>
          { calls := [.findOrgByName orgName, .userMe, .post req]
            diagnostics := [Diag.err ("Deserialization Error: " ++ e)] }
        | .ok rule =>
          let data := { plan with
            id := some rule.id
            org := some orgName
            status := some rule.status
            type := some rule.type }
          { calls := [.findOrgByName orgName, .userMe, .post req]
            state := some data }

/-- `NotificationRuleResource.Read`. A 404 adds a warning and signals
remove-from-state; any other non-200 status is a hard error. -/
def read (httpStatus : Nat) (body : String)
    (decode : Except String NotificationRuleResponse)
    (state : NotificationRuleResourceModel) :
    StepResult NotificationRuleResourceModel NRCall :=
  if httpStatus == 404 then
    { calls := [.get (valueString state.id)]
      diagnostics := [Diag.warn "[READ STAGE] Resource Not Found: removing from state"]
      removed := true }
  else if httpStatus != 200 then
    { calls := [.get (valueString state.id)]
      diagnostics := [Diag.err ("[READ STAGE] API Error: status "
        ++ toString httpStatus ++ ": " ++ body)] }
  else
    match decode with
    | .error e =>
      { calls := [.get (valueString state.id)]
        diagnostics := [Diag.err ("Deserialization Error: " ++ e)] }
    | .ok rule =>
      let data := { state with
        id := some rule.id
        name := some rule.name
        description := match rule.description with
          | some d => some d
          | none => state.description
        status := some rule.status
        type := some rule.type
        endpointID := some rule.endpointID
        every := match rule.every with
          | some v => some v
          | none => state.every
        offset := match rule.offset with
          | some v => some v
          | none => state.offset
        messageTemplate := match rule.messageTemplate with
          | some v => some v
          | none => state.messageTemplate
        statusRules := if rule.statusRules.length > 0 then
            rule.statusRules.map (fun r =>
              { currentLevel := some r.currentLevel
                previousLevel := if r.previousLevel != "" then
                    some r.previousLevel
                  else none })
          else state.statusRules
        tagRules := if rule.tagRules.length > 0 then
            rule.tagRules.map (fun r =>
              { key := some r.key
                value := some r.value
                operator := some r.operator })
          else state.tagRules }
      { calls := [.get (valueString state.id)]
        state := some data }

/-- The status-rule conversion of `Update`: 1:1, in order. -/
def convertStatusRule (r : StatusRuleModel) : StatusRule :=
  { currentLevel := valueString r.currentLevel
    previousLevel := valueString r.previousLevel }

/-- The tag-rule conversion of `Update`: 1:1, in order. -/
def convertTagRule (r : TagRuleModel) : TagRule :=
  { key := valueString r.key
    value := valueString r.value
    operator := valueString r.operator }

/-- The request assembled by `Update` (after `data.ID` has been replaced
by the state id): a full PUT body with owner id, offset always set, the
optional description/message template when present, and the status-rule
and tag-rule lists converted 1:1 in the caller order (the Go guards on
non-empty length are identity on the empty list). -/
def buildUpdateRequest (data : NotificationRuleResourceModel)
    (ownerID orgID : String) : NotificationRuleUpdateRequest :=
  let ruleReq : NotificationRuleUpdateRequest :=
    { id := valueString data.id
      name := valueString data.name
      status := valueString data.status
      type := valueString data.type
      endpointID := valueString data.endpointID
      ownerID := ownerID
      every := valueString data.every
      orgID := orgID
      statusRules := [] }
  let ruleReq := { ruleReq with offset := some (valueString data.offset) }
  let ruleReq := match data.description with
    | some d => { ruleReq with description := some d }
    | none => ruleReq
  let ruleReq := match data.offset with
    | some o => { ruleReq with offset := some o }
    | none => ruleReq
  let ruleReq := match data.messageTemplate with
    | some t => { ruleReq with messageTemplate := some t }
    | none => ruleReq
  let ruleReq := if data.statusRules.length > 0 then
      { ruleReq with statusRules := data.statusRules.map convertStatusRule }
    else ruleReq
  if data.tagRules.length > 0 then
    { ruleReq with tagRules := data.tagRules.map convertTagRule }
  else ruleReq

/-- `NotificationRuleResource.Update`. The id is taken from prior state
(never from the plan); a null or empty state id aborts with a Missing ID
error before the organization lookup, the user lookup and the PUT. -/
def update (provOrg : String) (orgResult : Except String Organization)
    (userResult : Except String InfluxUser) (httpStatus : Nat)
    (body : String) (decode : Except String NotificationRuleResponse)
    (plan state : NotificationRuleResourceModel) :
    StepResult NotificationRuleResourceModel NRCall :=
  if state.id.isNone || valueString state.id == "" then
    { diagnostics := [Diag.err "[UPDATE STAGE] Missing ID: Cannot update notification rule without an ID from current state"] }
  else
    let data := { plan with id := state.id }
    let orgName := match data.org with
      | some s => s
      | none => provOrg
    match orgResult with
    | .error e =>
      { calls := [.findOrgByName orgName]
        diagnostics := [Diag.err ("Client Error: unable to find organization: " ++ e)] }
    | .ok org =>
      match userResult with
      | .error e =>
        { calls := [.findOrgByName orgName, .userMe]
          diagnostics := [Diag.err ("[UPDATE STAGE] User Error: " ++ e)] }
      | .ok user =>
        let req := buildUpdateRequest data user.id org.id
        let calls := [NRCall.findOrgByName orgName, .userMe,
          .put (valueString data.id) req]
        if httpStatus != 200 then
          { calls := calls
            diagnostics := [Diag.err ("[UPDATE STAGE] API Error: status "
              ++ toString httpStatus ++ ": " ++ body)] }
        else
          match decode with
          | .error e =>
            { calls := calls
              diagnostics := [Diag.err ("[UPDATE STAGE] Deserialization Error: " ++ e)] }
          | .ok rule =>
            let data := { data with
              name := some rule.name
              status := some rule.status
              type := some rule.type
              org := some orgName
              every := match rule.every with
                | some v => some v
                | none => data.every }
            { calls := calls, state := some data }

/-- `NotificationRuleResource.Delete`: 204 and 404 both count as success;
anything else is a hard error carrying the response body. -/
def delete (httpStatus : Nat) (body : String)
    (state : NotificationRuleResourceModel) :
    StepResult NotificationRuleResourceModel NRCall :=
  if httpStatus != 204 && httpStatus != 404 then
    { calls := [.deleteCall (valueString state.id)]
      diagnostics := [Diag.err ("[DELETE STAGE] API Error: status "
        ++ toString httpStatus ++ ": " ++ body)] }
  else
    { calls := [.deleteCall (valueString state.id)] }

end NotificationRuleResource

/-! ## Concrete fixtures used by the claim theorems -/

/-- The remote task query of the spec example: the scheduling preamble,
a blank line, and the body. -/
def c1RemoteFlux : String :=
  "option task = \x7b name: \"t\", every: 5m \x7d\n\nfrom(bucket:\"b\")"

/-- A remote task whose stored query carries the preamble. -/
def c1Task : DomainTask :=
  { id := "t1", name := "t", orgID := "oid", flux := c1RemoteFlux,
    every := some "5m", status := some "active" }

/-- The organization resolved during the C1 read. -/
def c1Org : Organization := ⟨"oid", "org1"⟩

/-- Prior stored state for the C1 read. -/
def c1State : TaskResourceModel :=
  { id := some "t1", name := some "t", org := some "org1",
    flux := some "from(bucket:\"b\")", every := some "5m" }

/-- A task document with both scheduling fields set. -/
def c2BothPlan : TaskResourceModel :=
  { name := some "t", flux := some "f", every := some "5m",
    cron := some "0 1 * * *" }

/-- The organization resolved during the C3 create and read. -/
def c3Org : Organization := ⟨"oid", "org1"⟩

/-- Desired task document for the C3 create. -/
def c3Plan : TaskResourceModel :=
  { name := some "t", flux := some "f", every := some "5m" }

/-- The create response task with its server-assigned timestamps. -/
def c3Created : DomainTask :=
  { id := "t1", name := "t", orgID := "oid", flux := "f",
    status := some "active", every := some "5m",
    createdAt := some "2024-01-01T00:00:00Z",
    updatedAt := some "2024-01-01T00:00:00Z" }

/-- Stored state after the C3 create. -/
def c3AfterCreate : TaskResourceModel :=
  ((TaskResource.create "org1" (Except.ok c3Org) (Except.ok c3Created)
    c3Plan).state).getD {}

/-- The read response task, reporting different timestamps. -/
def c3Remote : DomainTask :=
  { c3Created with
    createdAt := some "2025-06-06T00:00:00Z"
    updatedAt := some "2025-07-07T00:00:00Z" }

/-- Stored state after the C3 read. -/
def c3AfterRead : TaskResourceModel :=
  ((TaskResource.read (Except.ok c3Remote) (Except.ok c3Org)
    c3AfterCreate).state).getD {}

/-- A notification-rule document with non-empty status-rule and tag-rule
lists and a message template. -/
def c4Plan : NotificationRuleResourceModel :=
  { name := some "r", status := some "active", type := some "slack",
    endpointID := some "ep1", every := some "1m", offset := some "10s",
    messageTemplate := some "notified",
    statusRules := [{ currentLevel := some "CRIT" }],
    tagRules := [{ key := some "host", value := some "h1",
                   operator := some "equal" }] }

/-- Prior stored task state for the C5 delete. -/
def c5TaskState : TaskResourceModel := { id := some "t1" }

/-- Prior stored bucket state for the C5 delete. -/
def c5BucketState : BucketResourceModel := { id := some "b1" }

/-- Prior stored check state for the C6 read. -/
def c6CheckState : CheckResourceModel := { id := some "c1" }

/-- Desired bucket document of the C7 scenario. -/
def c7Plan : BucketResourceModel :=
  { name := some "b1", org := some "org1", retentionSeconds := some 604800 }

/-- A create response echoing the C7 request. -/
def c7EchoBucket : DomainBucket :=
  { id := "bid1", name := "b1", orgID := some "oid",
    retentionRules := [⟨604800⟩] }

/-- Desired check document of the C8 scenario, with two thresholds. -/
def c8Plan : CheckResourceModel :=
  { name := some "cpu", org := some "org1", query := some "from(bucket:\"b\")",
    every := some "1m", type := some "threshold",
    thresholds := [{ type := some "greater", value := some 80,
                     level := some "WARN", allValues := some false },
                   { type := some "greater", value := some 95,
                     level := some "CRIT", allValues := some false }] }

/-- A create response echoing the C8 request. -/
def c8Created : CheckAPI :=
  { id := some "ck1", name := "cpu", orgID := "oid",
    query := ⟨"from(bucket:\"b\")"⟩, status := "active", every := "1m",
    offset := "0s", type := "threshold",
    thresholds := [{ allValues := some false, level := "WARN", value := 80,
                     type := "greater" },
                   { allValues := some false, level := "CRIT", value := 95,
                     type := "greater" }] }

/-! ## Helper lemmas -/

/-- `listStartsWith l []` holds for every `l`. -/
theorem listStartsWith_nil_pat (l : List Char) : listStartsWith l [] = true := by
  cases l <;> rfl

/-- A prefix of `l₁` is a prefix of `l₁ ++ l₂`. -/
theorem listStartsWith_append {p l₁ : List Char} (l₂ : List Char)
    (h : listStartsWith l₁ p = true) : listStartsWith (l₁ ++ l₂) p = true := by
  induction p generalizing l₁ with
  | nil => exact listStartsWith_nil_pat _
  | cons b bs ih =>
    cases l₁ with
    | nil => simp [listStartsWith] at h
    | cons a as =>
      simp only [listStartsWith, Bool.and_eq_true] at h ⊢
      exact ⟨h.1, ih h.2⟩

/-- An occurrence in `l₁` is an occurrence in `l₁ ++ l₂`. -/
theorem listContainsSub_append {p l₁ : List Char} (l₂ : List Char)
    (h : listContainsSub l₁ p = true) : listContainsSub (l₁ ++ l₂) p = true := by
  induction l₁ with
  | nil =>
    cases p with
    | nil =>
      cases l₂ with
      | nil => rfl
      | cons c cs => simp [listContainsSub, listStartsWith]
    | cons b bs => simp [listContainsSub, listStartsWith] at h
  | cons a as ih =>
    simp only [listContainsSub, Bool.or_eq_true] at h ⊢
    rcases h with h | h
    · exact Or.inl (listStartsWith_append _ h)
    · exact Or.inr (ih h)

/-! ## Claim theorems -/

/-- C1 (counterexample): on the spec example query — preamble, blank
line, `from(bucket:"b")` — the spec-modelled stripping yields exactly
`from(bucket:"b")`, yet the Task Read handler writes the remote query
verbatim (preamble included) into stored state, so stored state differs
from the stripped text. -/
theorem c1_preamble_not_stripped_on_read :
    stripTaskPreamble c1RemoteFlux = "from(bucket:\"b\")" ∧
    ((TaskResource.read (Except.ok c1Task) (Except.ok c1Org) c1State).state).bind
        TaskResourceModel.flux = some c1RemoteFlux ∧
    c1RemoteFlux ≠ stripTaskPreamble c1RemoteFlux := by
  refine ⟨by decide, rfl, by decide⟩

/-- C1 (amended): for every Task Read that succeeds, the query text taken
from the remote response is written to stored state verbatim — no
preamble stripping and no trimming is applied. -/
theorem c1_read_stores_remote_flux_verbatim (task : DomainTask)
    (org : Organization) (state : TaskResourceModel) :
    ((TaskResource.read (Except.ok task) (Except.ok org) state).state).bind
        TaskResourceModel.flux = some task.flux := rfl

/-- C2: Task Create and Update pass scheduling validation exactly when
exactly one of every/cron is non-empty; when both are non-empty or both
are empty/null, the operation reports a validation error and returns
with no remote call issued (no organization lookup, no create/update
request) and no state write. -/
theorem c2_scheduling_validation (plan : TaskResourceModel) (provOrg : String)
    (orgR : Except String Organization) (crR updR : Except String DomainTask) :
    (TaskResource.validateScheduling plan = none ↔
      TaskResource.hasEverySet plan ≠ TaskResource.hasCronSet plan) ∧
    (TaskResource.hasEverySet plan = TaskResource.hasCronSet plan →
      (TaskResource.create provOrg orgR crR plan).calls = [] ∧
      hasErrorDiag (TaskResource.create provOrg orgR crR plan).diagnostics = true ∧
      (TaskResource.create provOrg orgR crR plan).state = none ∧
      (TaskResource.update updR plan).calls = [] ∧
      hasErrorDiag (TaskResource.update updR plan).diagnostics = true ∧
      (TaskResource.update updR plan).state = none) := by
  constructor
  · unfold TaskResource.validateScheduling
    cases h1 : TaskResource.hasEverySet plan <;>
      cases h2 : TaskResource.hasCronSet plan <;> simp
  · intro h
    unfold TaskResource.create TaskResource.update TaskResource.validateScheduling
    cases h1 : TaskResource.hasEverySet plan <;>
      cases h2 : TaskResource.hasCronSet plan <;>
        simp_all [hasErrorDiag, Diag.err]

/-- C2 (witness): a task document with both every and cron set is
rejected by Create and Update with no remote call and no state write. -/
theorem c2_scheduling_validation_witness :
    (TaskResource.create "o" (Except.error "unused") (Except.error "unused")
        c2BothPlan).calls = [] ∧
    hasErrorDiag (TaskResource.create "o" (Except.error "unused")
        (Except.error "unused") c2BothPlan).diagnostics = true ∧
    (TaskResource.create "o" (Except.error "unused") (Except.error "unused")
        c2BothPlan).state = none ∧
    (TaskResource.update (Except.error "unused") c2BothPlan).calls = [] ∧
    hasErrorDiag (TaskResource.update (Except.error "unused")
        c2BothPlan).diagnostics = true ∧
    (TaskResource.update (Except.error "unused") c2BothPlan).state = none :=
  (c2_scheduling_validation c2BothPlan "o" (Except.error "unused")
    (Except.error "unused") (Except.error "unused")).2 (by decide)

/-- C3 (counterexample): after a successful Create stored created_at is
the create response value, and a subsequent successful Read whose remote
response reports different timestamps overwrites both created_at and
updated_at in stored state. -/
theorem c3_read_changes_timestamps :
    (TaskResource.create "org1" (Except.ok c3Org) (Except.ok c3Created)
        c3Plan).state = some c3AfterCreate ∧
    (TaskResource.read (Except.ok c3Remote) (Except.ok c3Org)
        c3AfterCreate).state = some c3AfterRead ∧
    c3AfterCreate.createdAt = some "2024-01-01T00:00:00Z" ∧
    c3AfterRead.createdAt = some "2025-06-06T00:00:00Z" ∧
    c3AfterRead.createdAt ≠ c3AfterCreate.createdAt ∧
    c3AfterRead.updatedAt ≠ c3AfterCreate.updatedAt := by
  decide

/-- C3 (amended): every successful Task Read sets stored created_at and
updated_at to the values reported by the remote response, so they are
preserved across a Read only when the remote reports the already-stored
values. -/
theorem c3_read_refreshes_timestamps (task : DomainTask) (org : Organization)
    (state : TaskResourceModel) :
    ((TaskResource.read (Except.ok task) (Except.ok org) state).state).bind
        TaskResourceModel.createdAt = task.createdAt ∧
    ((TaskResource.read (Except.ok task) (Except.ok org) state).state).bind
        TaskResourceModel.updatedAt = task.updatedAt :=
  ⟨rfl, rfl⟩

/-- C4 (counterexample): for a desired document with one status rule, one
tag rule and a message template, the create request sent by
NotificationRule Create carries an empty status-rule list, no tag rules
and no message template — not the 1:1 converted lists — and that exact
request is what the POST in the create trace carries. -/
theorem c4_create_drops_rule_lists :
    (NotificationRuleResource.buildCreateRequest c4Plan "user1" "orgid").statusRules = [] ∧
    c4Plan.statusRules.length = 1 ∧
    (NotificationRuleResource.buildCreateRequest c4Plan "user1" "orgid").tagRules = [] ∧
    c4Plan.tagRules.length = 1 ∧
    (NotificationRuleResource.buildCreateRequest c4Plan "user1" "orgid").messageTemplate = none ∧
    c4Plan.messageTemplate = some "notified" ∧
    (NotificationRuleResource.create "o" (Except.ok ⟨"orgid", "o"⟩)
        (Except.ok ⟨"user1"⟩) 201 "" (Except.error "decode unused") c4Plan).calls =
      [.findOrgByName "o", .userMe,
       .post (NotificationRuleResource.buildCreateRequest c4Plan "user1" "orgid")] := by
  decide

/-- C4 (amended): the NotificationRule create request contains name,
status, kind, endpoint ID, owner ID, interval, org ID and an
always-set offset, but its status-rule list is always empty and the
tag-rule, message-template and description fields are always omitted,
regardless of the desired document; the create trace POSTs exactly that
request after the organization and user lookups. -/
theorem c4_create_request_contents (plan : NotificationRuleResourceModel)
    (ownerID orgID provOrg : String) (org : Organization) (user : InfluxUser)
    (httpStatus : Nat) (body : String)
    (decode : Except String NotificationRuleResponse) :
    NotificationRuleResource.buildCreateRequest plan ownerID orgID =
      { name := valueString plan.name
        description := none
        status := valueString plan.status
        type := valueString plan.type
        endpointID := valueString plan.endpointID
        ownerID := ownerID
        every := valueString plan.every
        offset := some (valueString plan.offset)
        messageTemplate := none
        statusRules := []
        tagRules := []
        orgID := orgID } ∧
    (NotificationRuleResource.create provOrg (Except.ok org) (Except.ok user)
        httpStatus body decode plan).calls =
      [.findOrgByName (match plan.org with | some s => s | none => provOrg),
       .userMe,
       .post (NotificationRuleResource.buildCreateRequest plan user.id org.id)] := by
  constructor
  · rfl
  · cases hOrg : plan.org <;>
      cases decode <;>
        simp only [NotificationRuleResource.create, hOrg] <;>
          by_cases h : (httpStatus != 201) = true <;>
            simp [h]

/-- C5 (counterexample): a Task Delete and a Bucket Delete whose SDK call
surfaces a not-found outcome as an error report an error diagnostic
instead of completing cleanly. -/
theorem c5_task_bucket_delete_not_found_errors :
    hasErrorDiag (TaskResource.delete (some "404 Not Found: task not found")
        c5TaskState).diagnostics = true ∧
    hasErrorDiag (BucketResource.delete (some "404 Not Found: bucket not found")
        c5BucketState).diagnostics = true := by
  decide

/-- C5 (amended): a Delete whose remote request yields 404 completes
without error for Check, NotificationEndpoint and NotificationRule, but
Task Delete and Bucket Delete report every SDK delete error — including
the error a not-found outcome surfaces as — as an error diagnostic. -/
theorem c5_delete_not_found_by_kind (body e : String)
    (ckSt : CheckResourceModel) (neSt : NotificationEndpointResourceModel)
    (nrSt : NotificationRuleResourceModel) (tSt : TaskResourceModel)
    (bSt : BucketResourceModel) :
    (CheckResource.delete ⟨404, body⟩ ckSt).diagnostics = [] ∧
    (NotificationEndpointResource.delete 404 body neSt).diagnostics = [] ∧
    (NotificationRuleResource.delete 404 body nrSt).diagnostics = [] ∧
    hasErrorDiag (TaskResource.delete (some e) tSt).diagnostics = true ∧
    hasErrorDiag (BucketResource.delete (some e) bSt).diagnostics = true := by
  refine ⟨?_, rfl, rfl, rfl, rfl⟩
  unfold CheckResource.delete CheckResource.makeHTTPRequest
  have hsplit : ("API request failed with status " ++ toString (404 : Nat)
      ++ ": " ++ body).toList =
      ("API request failed with status " ++ toString (404 : Nat)
        ++ ": ").toList ++ body.toList := by
    simp [String.toList]
  have hc : containsSub ("API request failed with status "
      ++ toString (404 : Nat) ++ ": " ++ body) "404" = true := by
    unfold containsSub
    rw [hsplit]
    exact listContainsSub_append _ (by decide)
  simp [hc]

/-- C6 (counterexample): a Check Read whose remote fetch yields 404
reports a hard error diagnostic and does not signal remove-from-state. -/
theorem c6_check_read_not_found_hard_error :
    hasErrorDiag (CheckResource.read ⟨404, "check not found"⟩
        (Except.error "decode unused") (Except.error "org lookup unused")
        c6CheckState).diagnostics = true ∧
    (CheckResource.read ⟨404, "check not found"⟩
        (Except.error "decode unused") (Except.error "org lookup unused")
        c6CheckState).removed = false := by
  decide

/-- C6 (amended): a Read whose remote fetch yields 404 signals
remove-from-state with only a warning for NotificationEndpoint and
NotificationRule, while Check Read reports a hard error with no removal
signal, and Task Read and Bucket Read report every fetch error —
including the error a not-found outcome surfaces as — as a hard error
with no removal signal. -/
theorem c6_read_not_found_by_kind (body e : String)
    (dNE : Except String NotificationEndpointResponse)
    (dNR : Except String NotificationRuleResponse)
    (dC : Except String CheckAPI)
    (orgR orgR2 orgR3 : Except String Organization)
    (neSt : NotificationEndpointResourceModel)
    (nrSt : NotificationRuleResourceModel) (ckSt : CheckResourceModel)
    (tSt : TaskResourceModel) (bSt : BucketResourceModel) :
    (NotificationEndpointResource.read 404 body dNE neSt).removed = true ∧
    hasErrorDiag (NotificationEndpointResource.read 404 body dNE neSt).diagnostics = false ∧
    (NotificationRuleResource.read 404 body dNR nrSt).removed = true ∧
    hasErrorDiag (NotificationRuleResource.read 404 body dNR nrSt).diagnostics = false ∧
    (CheckResource.read ⟨404, body⟩ dC orgR ckSt).removed = false ∧
    hasErrorDiag (CheckResource.read ⟨404, body⟩ dC orgR ckSt).diagnostics = true ∧
    (TaskResource.read (Except.error e) orgR2 tSt).removed = false ∧
    hasErrorDiag (TaskResource.read (Except.error e) orgR2 tSt).diagnostics = true ∧
    (BucketResource.read (Except.error e) orgR3 bSt).removed = false ∧
    hasErrorDiag (BucketResource.read (Except.error e) orgR3 bSt).diagnostics = true := by
  refine ⟨rfl, rfl, rfl, rfl, ?_, ?_, rfl, rfl, rfl, rfl⟩ <;>
    simp [CheckResource.read, CheckResource.makeHTTPRequest, hasErrorDiag,
      Diag.err]

/-- C7: a successful Bucket Create for desired name b1, retention 604800
and org org1, whose response echoes the requested name and retention
rules and carries a non-empty id, stores name b1, the caller-supplied
org display name org1 (for any resolved organization id), retention 604800,
and the response id; moreover for every response the stored retention is
the first returned retention rule or 0 when the response carries none. -/
theorem c7_bucket_create_scenario (provOrg : String) (org : Organization)
    (b : DomainBucket) (hname : b.name = "b1")
    (hrules : b.retentionRules = BucketResource.prepareRetentionRules c7Plan)
    (hid : b.id ≠ "") :
    ((BucketResource.create provOrg (Except.ok org) (Except.ok b)
        c7Plan).state).bind BucketResourceModel.name = some "b1" ∧
    ((BucketResource.create provOrg (Except.ok org) (Except.ok b)
        c7Plan).state).bind BucketResourceModel.org = some "org1" ∧
    ((BucketResource.create provOrg (Except.ok org) (Except.ok b)
        c7Plan).state).bind BucketResourceModel.retentionSeconds = some 604800 ∧
    ((BucketResource.create provOrg (Except.ok org) (Except.ok b)
        c7Plan).state).bind BucketResourceModel.id = some b.id ∧
    some b.id ≠ some "" ∧
    (∀ b' : DomainBucket,
      ((BucketResource.create provOrg (Except.ok org) (Except.ok b')
          c7Plan).state).bind BucketResourceModel.retentionSeconds =
        some (match b'.retentionRules with
          | r :: _ => r.everySeconds
          | [] => 0)) := by
  refine ⟨?_, rfl, ?_, rfl, by simpa using hid, ?_⟩
  · simp [BucketResource.create, BucketResource.setRetentionSecondsFromRules,
      c7Plan, hname]
  · simp [BucketResource.create, BucketResource.setRetentionSecondsFromRules,
      hrules, BucketResource.prepareRetentionRules, c7Plan, valueInt]
  · intro b'
    simp [BucketResource.create, BucketResource.setRetentionSecondsFromRules,
      c7Plan]

/-- C7 (witness): the scenario evaluated at an echoing create response
with id bid1. -/
theorem c7_bucket_create_scenario_witness :
    ((BucketResource.create "default" (Except.ok ⟨"oid", "org1"⟩)
        (Except.ok c7EchoBucket) c7Plan).state).bind
        BucketResourceModel.name = some "b1" ∧
    ((BucketResource.create "default" (Except.ok ⟨"oid", "org1"⟩)
        (Except.ok c7EchoBucket) c7Plan).state).bind
        BucketResourceModel.org = some "org1" ∧
    ((BucketResource.create "default" (Except.ok ⟨"oid", "org1"⟩)
        (Except.ok c7EchoBucket) c7Plan).state).bind
        BucketResourceModel.retentionSeconds = some 604800 ∧
    ((BucketResource.create "default" (Except.ok ⟨"oid", "org1"⟩)
        (Except.ok c7EchoBucket) c7Plan).state).bind
        BucketResourceModel.id = some c7EchoBucket.id ∧
    some c7EchoBucket.id ≠ some "" := by
  have h := c7_bucket_create_scenario "default" ⟨"oid", "org1"⟩ c7EchoBucket
    (by decide) (by decide) (by decide)
  exact ⟨h.1, h.2.1, h.2.2.1, h.2.2.2.1, h.2.2.2.2.1⟩

/-- C8: the Check create payload carries the declared thresholds
converted 1:1 in caller order (all_values read with its false-when-null
default), status defaulting to active and offset to 0s exactly when
absent; the POST in the create trace carries exactly that payload, and a
successful create stores the response threshold list 1:1 in response
order with all_values defaulted to false when the response leaves it
absent. -/
theorem c8_check_create_thresholds (data : CheckResourceModel)
    (orgID provOrg : String) (org : Organization) (resp : HTTPResponse)
    (created : CheckAPI)
    (hok : 200 ≤ resp.statusCode ∧ resp.statusCode < 300) :
    (CheckResource.buildCreatePayload data orgID).thresholds =
      data.thresholds.map CheckResource.convertThreshold ∧
    (∀ t : ThresholdModel, CheckResource.convertThreshold t =
      { type := valueString t.type
        value := valueInt t.value
        level := valueString t.level
        allValues := some (valueBool t.allValues) }) ∧
    (CheckResource.buildCreatePayload data orgID).status =
      (match data.status with | some s => s | none => "active") ∧
    (CheckResource.buildCreatePayload data orgID).offset =
      (match data.offset with | some o => o | none => "0s") ∧
    (CheckResource.create provOrg (Except.ok org) resp (Except.ok created)
        data).calls =
      [.findOrgByName (match data.org with | some s => s | none => provOrg),
       .post (CheckResource.buildCreatePayload data org.id)] ∧
    ((CheckResource.create provOrg (Except.ok org) resp (Except.ok created)
        data).state).bind (fun st => some st.thresholds) =
      some (created.thresholds.map (fun t =>
        ({ type := some t.type
           value := some t.value
           level := some t.level
           allValues := some (t.allValues.getD false) } : ThresholdModel))) := by
  have hcond : (decide (resp.statusCode < 200) ||
      decide (resp.statusCode ≥ 300)) = false := by
    simp only [Bool.or_eq_false_iff, decide_eq_false_iff_not]
    omega
  refine ⟨?_, fun t => rfl, ?_, ?_, ?_, ?_⟩
  · unfold CheckResource.buildCreatePayload
    cases data.description <;> cases data.status <;> cases data.offset <;>
      cases data.type <;> cases data.statusMessageTemplate <;> rfl
  · unfold CheckResource.buildCreatePayload
    cases data.description <;> cases data.status <;> cases data.offset <;>
      cases data.type <;> cases data.statusMessageTemplate <;> rfl
  · unfold CheckResource.buildCreatePayload
    cases data.description <;> cases data.status <;> cases data.offset <;>
      cases data.type <;> cases data.statusMessageTemplate <;> rfl
  · cases hOrg : data.org <;>
      simp [CheckResource.create, CheckResource.makeHTTPRequest, hOrg, hcond]
  · cases hOrg : data.org <;>
      simp [CheckResource.create, CheckResource.makeHTTPRequest, hOrg, hcond,
        CheckResource.setComputedFields]

/-- C8 (witness): the two-threshold scenario of the spec, evaluated at an
echoing 201 response. -/
theorem c8_check_create_thresholds_witness :
    (CheckResource.buildCreatePayload c8Plan "oid").thresholds =
      c8Plan.thresholds.map CheckResource.convertThreshold ∧
    (CheckResource.buildCreatePayload c8Plan "oid").status = "active" ∧
    (CheckResource.buildCreatePayload c8Plan "oid").offset = "0s" ∧
    ((CheckResource.create "o" (Except.ok ⟨"oid", "org1"⟩) ⟨201, "created"⟩
        (Except.ok c8Created) c8Plan).state).bind
        (fun st => some st.thresholds) =
      some (c8Created.thresholds.map (fun t =>
        ({ type := some t.type
           value := some t.value
           level := some t.level
           allValues := some (t.allValues.getD false) } : ThresholdModel))) := by
  have h := c8_check_create_thresholds c8Plan "oid" "o" ⟨"oid", "org1"⟩
    ⟨201, "created"⟩ c8Created (by constructor <;> decide)
  exact ⟨h.1, h.2.2.1, h.2.2.2.1, h.2.2.2.2.2⟩

/-- C9: the NotificationEndpoint create request is exactly
{name, type, url, status active, method POST, authMethod none, orgID};
it is invariant under the desired document's token, username, password,
headers, method, auth-method and status fields, and the POST in the
create trace carries exactly that request. -/
theorem c9_ne_create_request (data : NotificationEndpointResourceModel)
    (orgID provOrg : String) (org : Organization) (httpStatus : Nat)
    (body : String) (decode : Except String NotificationEndpointResponse)
    (tok usr pwd mth am stat : Option String)
    (hdrs : Option (List (String × String))) :
    NotificationEndpointResource.buildCreateRequest data orgID =
      { name := valueString data.name
        type := valueString data.type
        url := valueString data.url
        status := "active"
        method := "POST"
        authMethod := "none"
        orgID := orgID } ∧
    NotificationEndpointResource.buildCreateRequest
      { data with
        token := tok
        username := usr
        password := pwd
        method := mth
        authMethod := am
        status := stat
        headers := hdrs }
      orgID = NotificationEndpointResource.buildCreateRequest data orgID ∧
    (NotificationEndpointResource.create provOrg (Except.ok org) httpStatus
        body decode data).calls =
      [.findOrgByName (match data.org with | some s => s | none => provOrg),
       .post (NotificationEndpointResource.buildCreateRequest data org.id)] := by
  refine ⟨rfl, rfl, ?_⟩
  cases hOrg : data.org <;>
    cases decode <;>
      simp only [NotificationEndpointResource.create, hOrg] <;>
        by_cases h : (httpStatus != 201) = true <;>
          simp [h]

/-- C10: NotificationRule Update is independent of the plan's id field;
when the prior state id is null or empty it reports a Missing ID error
and returns with no remote call (no organization lookup, no user lookup,
no PUT) and no state write; otherwise the PUT targets the prior state
id. -/
theorem c10_nr_update_id_from_state (provOrg : String)
    (orgR : Except String Organization) (userR : Except String InfluxUser)
    (httpStatus : Nat) (body : String)
    (decode : Except String NotificationRuleResponse)
    (plan state : NotificationRuleResourceModel) (x : Option String)
    (org : Organization) (user : InfluxUser) :
    NotificationRuleResource.update provOrg orgR userR httpStatus body decode
        { plan with id := x } state =
      NotificationRuleResource.update provOrg orgR userR httpStatus body
        decode plan state ∧
    ((state.id.isNone || valueString state.id == "") = true →
      (NotificationRuleResource.update provOrg orgR userR httpStatus body
          decode plan state).calls = [] ∧
      hasErrorDiag (NotificationRuleResource.update provOrg orgR userR
          httpStatus body decode plan state).diagnostics = true ∧
      (NotificationRuleResource.update provOrg orgR userR httpStatus body
          decode plan state).state = none) ∧
    ((state.id.isNone || valueString state.id == "") = false →
      (NotificationRuleResource.update provOrg (Except.ok org)
          (Except.ok user) httpStatus body decode plan state).calls =
        [.findOrgByName (match plan.org with | some s => s | none => provOrg),
         .userMe,
         .put (valueString state.id)
           (NotificationRuleResource.buildUpdateRequest
             { plan with id := state.id } user.id org.id)]) := by
  refine ⟨rfl, ?_, ?_⟩
  · intro h
    simp [NotificationRuleResource.update, h, hasErrorDiag, Diag.err]
  · intro h
    cases hOrg : plan.org <;>
      cases decode <;>
        simp only [NotificationRuleResource.update, h, hOrg] <;>
          by_cases h2 : (httpStatus != 200) = true <;>
            simp [h2]

/-- C10 (witness): an update against a prior state with no id aborts with
an error, no remote call and no state write. -/
theorem c10_nr_update_id_witness :
    (NotificationRuleResource.update "o" (Except.error "unused")
        (Except.error "unused") 200 "" (Except.error "unused")
        {} {}).calls = [] ∧
    hasErrorDiag (NotificationRuleResource.update "o" (Except.error "unused")
        (Except.error "unused") 200 "" (Except.error "unused")
        {} {}).diagnostics = true ∧
    (NotificationRuleResource.update "o" (Except.error "unused")
        (Except.error "unused") 200 "" (Except.error "unused")
        {} {}).state = none :=
  (c10_nr_update_id_from_state "o" (Except.error "unused")
    (Except.error "unused") 200 "" (Except.error "unused") {} {} none
    ⟨"", ""⟩ ⟨""⟩).2.1 (by decide)

end Influx
